import Mathlib

/-!
# CyberRAG — verification of the ingestion and query pipelines

Shallow embedding of the two source programs of the CyberRAG repository:

* `src/ingest_atomics.py` — walks a directory of atomic-test definition
  files, builds one `Document` per atomic test and stores them in a
  vector index;
* `src/query_rag.py` — loads the persisted index and, per entered alert,
  rewrites the alert with a language model, retrieves the top-4 similar
  documents and generates an analysis.

Machine strings are modelled as Lean `String`; the Python-specific
primitive operations (`str.strip`, `str.lower`, slicing `s[:n]`, list
truthiness) are modelled explicitly below so that every definition can be
evaluated on concrete inputs.  Results of external services
(YAML parsing, the JSON decoding of the language-model response, the
embedding similarity) enter the model as explicit parameters.
-/

namespace CyberRAG

/-! ## Python string primitives -/

/-- The characters stripped by Python `str.strip()` with no argument
(ASCII whitespace). -/
def pyIsSpace (c : Char) : Bool :=
  c = ' ' || c = '\t' || c = '\n' || c = '\r' || c = '\x0b' || c = '\x0c'

/-- Models Python `s.strip()`: remove leading and trailing whitespace. -/
def pyStrip (s : String) : String :=
  ⟨((s.data.dropWhile pyIsSpace).reverse.dropWhile pyIsSpace).reverse⟩

/-- ASCII lower-casing of one character, as Python `str.lower()` does on
ASCII input. -/
def pyLowerChar (c : Char) : Char :=
  if 'A' ≤ c && c ≤ 'Z' then Char.ofNat (c.toNat + 32) else c

/-- Models Python `s.lower()`. -/
def pyLower (s : String) : String := ⟨s.data.map pyLowerChar⟩

/-- Models Python slicing `s[:n]` on a string: the first `n` characters. -/
def pyTake (s : String) (n : Nat) : String := ⟨s.data.take n⟩

/-! ## Ingestion data model (`src/ingest_atomics.py`)

A definition file parses (via `yaml.safe_load`) into a mapping; the
fields the program reads are modelled as optional values, `none` meaning
the key is absent. -/

/-- The `executor` mapping of one atomic test (`test.get('executor', {})`,
read with `executor.get('command', '')` and `executor.get('name', 'unknown')`). -/
structure Executor where
  name : Option String := none
  command : Option String := none
deriving DecidableEq, Repr

/-- One entry of the `atomic_tests` list of a definition file. -/
structure AtomicTest where
  name : Option String := none
  description : Option String := none
  supported_platforms : Option (List String) := none
  executor : Option Executor := none
deriving DecidableEq, Repr

/-- The top-level mapping parsed from one definition file. -/
structure TechniqueFile where
  attack_technique : Option String := none
  display_name : Option String := none
  atomic_tests : Option (List AtomicTest) := none
deriving DecidableEq, Repr

/-- A LangChain `Document`: free text plus a metadata dictionary, the
dictionary modelled as the ordered association list written in the
source's dict literal. -/
structure Document where
  page_content : String
  metadata : List (String × String)
deriving DecidableEq, Repr

/-- Dictionary lookup in a Document's metadata (`doc.metadata.get(k)`
restricted to present keys). -/
def getMeta (d : Document) (k : String) : Option String :=
  (d.metadata.find? (fun p => p.1 == k)).map Prod.snd

/-- The per-test document construction of `ingest_atomics.py` lines
50–87: defaults for the optional fields, the composed `page_content`
f-string (with its source indentation), and the metadata dict with the
command sliced to its first 1000 characters. -/
def buildDocument (technique_id technique_name file_path : String)
    (test : AtomicTest) : Document :=
  let test_name := test.name.getD "Unnamed Test"
  let description := pyStrip (test.description.getD "")
  let platforms := test.supported_platforms.getD []
  let platform_str := if platforms = [] then "unknown" else String.intercalate ", " platforms
  let executor := test.executor.getD {}
  let command := executor.command.getD ""
  let executor_name := executor.name.getD "unknown"
  let page_content :=
    "\n                        Technique: " ++ technique_id ++ ": " ++ technique_name
      ++ "\n                        Test Name: " ++ test_name
      ++ "\n                        Platform: " ++ platform_str
      ++ "\n                        Description: " ++ description
      ++ "\n                        Command: " ++ command
      ++ "\n                        "
  { page_content := page_content
    metadata := [("technique_id", technique_id),
                 ("technique_name", technique_name),
                 ("test_name", test_name),
                 ("platform", platform_str),
                 ("executor", executor_name),
                 ("command", pyTake command 1000),
                 ("source", file_path)] }

/-- Outcome of opening and `yaml.safe_load`-ing one definition file:
either the exception raised inside the per-file `try` block, or the
parsed value (`none` models a falsy result such as an empty file). -/
inductive FileParse where
  | parseError (msg : String)
  | parsed (data : Option TechniqueFile)
deriving DecidableEq, Repr

/-- Per-file processing of the ingestion walk (lines 38–94): an
exception is caught, reported and the file skipped; falsy data or a
missing `atomic_tests` key silently contributes nothing; otherwise one
document per atomic test, with `attack_technique` and `display_name`
defaulting to `"Unknown"`. -/
def processFile (file_path : String) (parse : FileParse) :
    List Document × Option String :=
  match parse with
  | FileParse.parseError msg => ([], some msg)
  | FileParse.parsed none => ([], none)
  | FileParse.parsed (some data) =>
    match data.atomic_tests with
    | none => ([], none)
    | some tests =>
        (tests.map (buildDocument (data.attack_technique.getD "Unknown")
          (data.display_name.getD "Unknown") file_path), none)

/-- The documents accumulated by the walk over a list of (path, parse
outcome) pairs. -/
def ingestFiles (files : List (String × FileParse)) : List Document :=
  files.flatMap (fun f => (processFile f.1 f.2).1)

/-- The error reports printed by the walk. -/
def ingestErrors (files : List (String × FileParse)) : List String :=
  files.filterMap (fun f => (processFile f.1 f.2).2)

/-! ## Query pipeline (`src/query_rag.py`)

The rewriter response is handled with Python `json` semantics, so JSON
values are modelled explicitly; a JSON object is the ordered association
list produced by the decoder. -/

/-- A decoded JSON value. -/
inductive JValue where
  | null
  | bool (b : Bool)
  | num (n : Int)
  | str (s : String)
  | arr (xs : List JValue)
  | obj (fields : List (String × JValue))
deriving Repr

/-- Whether a JSON value is an object (a Python dict after decoding),
the only type on which `.get` is defined. -/
def JValue.isObj : JValue → Bool
  | JValue.obj _ => true
  | _ => false

/-- Python `d.get(k)` on a decoded JSON object: `none` when the key is
absent (or when the value is not a dict, where `.get` does not exist). -/
def jsonGet (v : JValue) (k : String) : Option JValue :=
  match v with
  | JValue.obj fields => (fields.find? (fun p => p.1 == k)).map Prod.snd
  | _ => none

/-- The exception raised by `rewriter_data.get(...)` when `json.loads`
returned a non-dict value: an AttributeError, which the inner
`except json.JSONDecodeError` handler does not catch. -/
def attributeErrorMsg : String := "AttributeError: .get is not defined on this type"

/-- Lines 133–141 of `query_rag.py`: decode the rewriter output.
`response = none` models a `json.JSONDecodeError` from `json.loads`,
answered by the fallback `(query, {})`; a decoded dict is read with
`.get("enhanced_query", query)` and `.get("iocs", {})`; any other
decoded value raises an AttributeError that escapes to the outer
per-turn handler. -/
def parseRewrite (query : String) (response : Option JValue) :
    Except String (JValue × JValue) :=
  match response with
  | none => Except.ok (JValue.str query, JValue.obj [])
  | some v =>
    match v with
    | JValue.obj _ =>
        Except.ok ((jsonGet v "enhanced_query").getD (JValue.str query),
                   (jsonGet v "iocs").getD (JValue.obj []))
    | _ => Except.error attributeErrorMsg

/-- The loaded vector store: the documents it retains (vectors are
implicit in the similarity parameter below). -/
structure Index where
  docs : List Document
deriving Repr

/-- Modelled from the spec: `search` of the Embedding Index (§4.3) is an
external FAISS capability, absent from `src/`; per the spec it returns
the `k` nearest documents by vector similarity, most-similar first, and
all of them when `k` exceeds the document count.  The similarity of the
embedding model is abstracted as a scoring function `sim`. -/
def sortBySimilarity (sim : String → Document → Nat) (query : String)
    (docs : List Document) : List Document :=
  docs.mergeSort (fun a b => sim query b ≤ sim query a)

/-- Modelled from the spec: `vectorstore.similarity_search(query, k)` —
the `k` most similar retained documents, most-similar first. -/
def similaritySearch (sim : String → Document → Nat) (idx : Index)
    (query : String) (k : Nat) : List Document :=
  (sortBySimilarity sim query idx.docs).take k

/-- Line 149 of `query_rag.py`: the retrieval step,
`vectorstore.similarity_search(enhanced_query, k=4)`, whose result is
used unchanged. -/
def retrieve (sim : String → Document → Nat) (idx : Index)
    (enhanced_query : String) : List Document :=
  similaritySearch sim idx enhanced_query 4

/-- The spec's IndicatorSet: the three optional string fields of the
rewriter's `iocs` mapping. -/
structure IndicatorSet where
  source_ip : Option String := none
  dest_ip : Option String := none
  protocol : Option String := none
deriving DecidableEq, Repr

/-- Python truthiness of `iocs.get(k)` for an optional string field:
false for an absent key and for the empty string. -/
def pyTruthy : Option String → Bool
  | none => false
  | some s => s ≠ ""

/-- The substitute listing when no indicator field is populated. -/
def noIocsLine : String := "- No IOCs extracted (clean query)\n"

/-- Lines 161–169 of `query_rag.py`: build the human-readable indicator
listing by appending one line per truthy field, substituting
`noIocsLine` when the accumulated string is empty. -/
def ioc_details (iocs : IndicatorSet) : String :=
  let d := ""
  let d := if pyTruthy iocs.source_ip then
             d ++ ("- Source IP: " ++ iocs.source_ip.getD "" ++ "\n") else d
  let d := if pyTruthy iocs.dest_ip then
             d ++ ("- Destination IP: " ++ iocs.dest_ip.getD "" ++ "\n") else d
  let d := if pyTruthy iocs.protocol then
             d ++ ("- Protocol: " ++ iocs.protocol.getD "" ++ "\n") else d
  if d = "" then noIocsLine else d

/-- The exception raised when a non-string `enhanced_query` reaches the
embedding call of `similarity_search`. -/
def queryTypeErrorMsg : String := "TypeError: query text is not a string"

/-- What one successful pipeline turn produces before the analysis call:
the enhanced query, the decoded `iocs` value and the retrieved documents. -/
structure TurnData where
  enhanced_query : String
  iocs : JValue
  retrieved : List Document

/-- One turn of the interactive loop after input handling (lines
128–155): decode the rewriter response with its fallback, then run the
top-4 similarity search on the enhanced query; exceptions propagate to
the per-turn handler as `Except.error`. -/
def runTurn (sim : String → Document → Nat) (idx : Index)
    (response : Option JValue) (query : String) : Except String TurnData :=
  match parseRewrite query response with
  | Except.error e => Except.error e
  | Except.ok (v, iocs) =>
    match v with
    | JValue.str qs => Except.ok ⟨qs, iocs, retrieve sim idx qs⟩
    | _ => Except.error queryTypeErrorMsg

/-- The words that terminate the interactive loop. -/
def exitWords : List String := ["exit", "quit", "q"]

/-- What the loop does with one raw input line. -/
inductive StepResult where
  | exitLoop
  | skip
  | turn (original_alert : String) (outcome : Except String TurnData)

/-- Lines 121–126 of `query_rag.py`: the entered line is stripped, an
exit word terminates, an empty stripped line re-prompts, and otherwise
the stripped string is the alert passed to the whole turn. -/
def loopStep (sim : String → Document → Nat) (idx : Index)
    (response : Option JValue) (raw : String) : StepResult :=
  let query := pyStrip raw
  if exitWords.contains (pyLower query) then StepResult.exitLoop
  else if query = "" then StepResult.skip
  else StepResult.turn query (runTurn sim idx response query)

/-- The interactive loop over a list of (raw input, rewriter response)
pairs, collecting the per-turn outcomes. -/
def runLoop (sim : String → Document → Nat) (idx : Index) :
    List (String × Option JValue) → List (String × Except String TurnData)
  | [] => []
  | (raw, response) :: rest =>
    match loopStep sim idx response raw with
    | StepResult.exitLoop => []
    | StepResult.skip => runLoop sim idx rest
    | StepResult.turn alert outcome => (alert, outcome) :: runLoop sim idx rest

/-- Overall result of `main` in `query_rag.py`. -/
inductive PipelineResult where
  | fatalNoApiKey
  | fatalLoadFailure (msg : String)
  | ran (turns : List (String × Except String TurnData))

/-- Lines 18–47 and the loop of `query_rag.py`: a missing credential
aborts, a failed `FAISS.load_local` prints the failure and returns
before the loop, and otherwise the interactive loop runs. -/
def queryMain (apiKey : Option String) (load : Except String Index)
    (sim : String → Document → Nat)
    (inputs : List (String × Option JValue)) : PipelineResult :=
  match apiKey with
  | none => PipelineResult.fatalNoApiKey
  | some _ =>
    match load with
    | Except.error e => PipelineResult.fatalLoadFailure e
    | Except.ok idx => PipelineResult.ran (runLoop sim idx inputs)

/-- The per-alert turns a pipeline run performed (none on a fatal path). -/
def processedTurns : PipelineResult → List (String × Except String TurnData)
  | PipelineResult.ran turns => turns
  | _ => []

/-! ## Helper lemmas -/

/-- A string with a nonempty right append component is nonempty. -/
lemma append_ne_empty_of_length (s t : String) (ht : t.length ≠ 0) :
    s ++ t ≠ "" := by
  intro he
  have h2 := congrArg String.length he
  rw [String.length_append] at h2
  have h0 : ("" : String).length = 0 := rfl
  rw [h0] at h2
  omega

/-- An indicator line (ending in a newline) has nonzero length. -/
lemma line_length_ne_zero (p v : String) : (p ++ v ++ "\n").length ≠ 0 := by
  have h1 : ("\n" : String).length = 1 := rfl
  rw [String.length_append, String.length_append, h1]
  omega

/-! ## Claims -/

/-- Claim C1, counterexample: a rewrite response that decodes as valid
JSON but not as an object — here the JSON array `[]` — is not treated as
a no-op by the query pipeline; the `.get` call raises an AttributeError
that the fallback handler (which catches only `json.JSONDecodeError`)
does not intercept, so `enhanced_query` is never set to the original
alert for this response. -/
theorem rewrite_nonobject_response_not_fallback :
    JValue.isObj (JValue.arr []) = false
    ∧ parseRewrite "alert" (some (JValue.arr [])) = Except.error attributeErrorMsg
    ∧ parseRewrite "alert" (some (JValue.arr []))
        ≠ Except.ok (JValue.str "alert", JValue.obj []) := by
  refine ⟨rfl, rfl, ?_⟩
  intro h
  simp [parseRewrite] at h

/-- Claim C1 (amended): for every rewrite response that fails JSON
decoding (a `json.JSONDecodeError`), the pipeline treats the rewrite as
a no-op — `enhanced_query` is the original alert text exactly and the
indicator set is empty — and this path raises no error. -/
theorem rewrite_fallback_on_json_decode_failure (query : String) :
    parseRewrite query none = Except.ok (JValue.str query, JValue.obj []) := rfl

/-- Claim C2: the `command` value stored in a built Document's metadata
is the source command sliced to 1000 characters, hence of length at most
1000, while the Document's `page_content` contains the full untruncated
command. -/
theorem command_metadata_truncated_content_full
    (technique_id technique_name file_path : String) (test : AtomicTest) :
    getMeta (buildDocument technique_id technique_name file_path test) "command"
        = some (pyTake ((test.executor.getD {}).command.getD "") 1000)
    ∧ (pyTake ((test.executor.getD {}).command.getD "") 1000).length ≤ 1000
    ∧ ∃ pre post,
        (buildDocument technique_id technique_name file_path test).page_content
          = pre ++ ((test.executor.getD {}).command.getD "") ++ post := by
  refine ⟨rfl, ?_, ?_⟩
  · show (((test.executor.getD {}).command.getD "").data.take 1000).length ≤ 1000
    rw [List.length_take]
    exact Nat.min_le_left _ _
  · refine ⟨"\n                        Technique: " ++ technique_id ++ ": " ++ technique_name
      ++ "\n                        Test Name: " ++ (test.name.getD "Unnamed Test")
      ++ "\n                        Platform: "
      ++ (if (test.supported_platforms.getD []) = [] then "unknown"
          else String.intercalate ", " (test.supported_platforms.getD []))
      ++ "\n                        Description: " ++ pyStrip (test.description.getD "")
      ++ "\n                        Command: ",
      "\n                        ", ?_⟩
    simp [buildDocument, String.append_assoc]

/-- Claim C3, counterexample: the metadata of a concrete built Document
has no key `source_path`; the file path is stored under the key
`source`, so the claimed key set is not the one the code produces. -/
theorem metadata_source_key_counterexample :
    "source_path" ∉ (buildDocument "T1003" "OS Credential Dumping"
        "atomics/T1003/T1003.yaml" {}).metadata.map Prod.fst
    ∧ "source" ∈ (buildDocument "T1003" "OS Credential Dumping"
        "atomics/T1003/T1003.yaml" {}).metadata.map Prod.fst := by
  constructor <;> decide

/-- Claim C3 (amended): every Document produced by the ingestion
pipeline has a metadata mapping whose key sequence is exactly
`technique_id, technique_name, test_name, platform, executor, command,
source`. -/
theorem metadata_keys_exact (technique_id technique_name file_path : String)
    (test : AtomicTest) :
    (buildDocument technique_id technique_name file_path test).metadata.map Prod.fst
      = ["technique_id", "technique_name", "test_name", "platform",
         "executor", "command", "source"] := rfl

/-- Claim C5: when loading the persisted index fails, the query pipeline
reports the failure and aborts before any per-alert work: the run result
is the fatal-load outcome carrying the diagnostic, and the list of
processed turns is empty whatever inputs were waiting. -/
theorem index_load_failure_aborts (key errMsg : String)
    (sim : String → Document → Nat) (inputs : List (String × Option JValue)) :
    queryMain (some key) (Except.error errMsg) sim inputs
        = PipelineResult.fatalLoadFailure errMsg
    ∧ processedTurns (queryMain (some key) (Except.error errMsg) sim inputs) = [] :=
  ⟨rfl, rfl⟩

/-- An if-condition rewriter: an accumulated listing that ends in an
indicator line is never the empty string. -/
lemma append_line_ne_empty (s p v : String) :
    (s ++ (p ++ v ++ "\n") = "") = False := by
  simp only [eq_iff_iff, iff_false]
  exact append_ne_empty_of_length _ _ (line_length_ne_zero _ _)

/-- An if-condition rewriter: a single indicator line is never the
empty string. -/
lemma line_ne_empty (p v : String) : (p ++ v ++ "\n" = "") = False := by
  simp only [eq_iff_iff, iff_false]
  intro he
  have hlen := line_length_ne_zero p v
  rw [he] at hlen
  exact hlen rfl

/-- Claim C4: a parse failure on one definition file contributes no
documents and is reported while the walk over the remaining files
continues unchanged, and a file whose parsed content is empty or lacks
the `atomic_tests` collection contributes zero documents silently, with
no exception escaping. -/
theorem parse_failure_skipped_walk_continues
    (pre post : List (String × FileParse)) (badPath badMsg otherPath : String)
    (d : TechniqueFile) (hd : d.atomic_tests = none) :
    ingestFiles (pre ++ (badPath, FileParse.parseError badMsg) :: post)
        = ingestFiles pre ++ ingestFiles post
    ∧ badMsg ∈ ingestErrors (pre ++ (badPath, FileParse.parseError badMsg) :: post)
    ∧ processFile otherPath (FileParse.parsed (some d)) = ([], none)
    ∧ processFile otherPath (FileParse.parsed none) = ([], none) := by
  refine ⟨?_, ?_, ?_, rfl⟩
  · simp [ingestFiles, processFile]
  · simp [ingestErrors, processFile]
  · simp [processFile, hd]

/-- Witness for C4 at a concrete walk: one failing file between empty
stretches, and one file parsed with no `atomic_tests` key. -/
theorem parse_failure_skipped_walk_continues_witness :
    ingestFiles ([] ++ ("T1.yaml", FileParse.parseError "bad yaml") :: [])
        = ingestFiles [] ++ ingestFiles []
    ∧ "bad yaml" ∈ ingestErrors ([] ++ ("T1.yaml", FileParse.parseError "bad yaml") :: [])
    ∧ processFile "T2.yaml" (FileParse.parsed (some {})) = ([], none)
    ∧ processFile "T2.yaml" (FileParse.parsed none) = ([], none) :=
  parse_failure_skipped_walk_continues [] [] "T1.yaml" "bad yaml" "T2.yaml" {} rfl

/-- Claim C6: the retriever issues the similarity search with the fixed
`k = 4` and returns the similarity-ordered result unchanged; when the
index holds fewer than four documents the result is exactly the whole
similarity-ordered document list, a permutation of the indexed
documents. -/
theorem retriever_topk_four_unchanged (sim : String → Document → Nat)
    (idx : Index) (q : String) (h : idx.docs.length < 4) :
    retrieve sim idx q = similaritySearch sim idx q 4
    ∧ retrieve sim idx q = sortBySimilarity sim q idx.docs
    ∧ (retrieve sim idx q).Perm idx.docs := by
  have hlen : (sortBySimilarity sim q idx.docs).length ≤ 4 := by
    simp only [sortBySimilarity, List.length_mergeSort]
    omega
  refine ⟨rfl, ?_, ?_⟩
  · show (sortBySimilarity sim q idx.docs).take 4 = sortBySimilarity sim q idx.docs
    exact List.take_of_length_le hlen
  · show ((sortBySimilarity sim q idx.docs).take 4).Perm idx.docs
    rw [List.take_of_length_le hlen]
    exact List.mergeSort_perm idx.docs _

/-- A concrete similarity scoring used to witness the retrieval claims. -/
def simW : String → Document → Nat := fun q d => q.length + d.page_content.length

/-- A concrete two-document index used to witness the retrieval claims. -/
def idxW : Index :=
  ⟨[buildDocument "T1110" "Brute Force" "atomics/T1110/T1110.yaml" {},
    buildDocument "T1003" "OS Credential Dumping" "atomics/T1003/T1003.yaml" {}]⟩

/-- Witness for C6: a two-document index searched with `k = 4`. -/
theorem retriever_topk_four_unchanged_witness :
    retrieve simW idxW "ssh brute force" = similaritySearch simW idxW "ssh brute force" 4
    ∧ retrieve simW idxW "ssh brute force" = sortBySimilarity simW "ssh brute force" idxW.docs
    ∧ (retrieve simW idxW "ssh brute force").Perm idxW.docs :=
  retriever_topk_four_unchanged simW idxW "ssh brute force" (by decide)

/-- Claim C7: the rendered indicator listing holds exactly one line per
populated field among source IP, destination IP and protocol — the
concatenation, in order, of the lines of the populated fields — and when
none is populated it is the single line stating no indicators were
extracted. -/
theorem indicator_listing_lines (i : IndicatorSet) :
    (pyTruthy i.source_ip = false → pyTruthy i.dest_ip = false →
       pyTruthy i.protocol = false → ioc_details i = noIocsLine)
    ∧ ((pyTruthy i.source_ip || pyTruthy i.dest_ip || pyTruthy i.protocol) = true →
       ioc_details i = String.join
         ((if pyTruthy i.source_ip then ["- Source IP: " ++ i.source_ip.getD "" ++ "\n"] else [])
           ++ (if pyTruthy i.dest_ip then ["- Destination IP: " ++ i.dest_ip.getD "" ++ "\n"] else [])
           ++ (if pyTruthy i.protocol then ["- Protocol: " ++ i.protocol.getD "" ++ "\n"] else []))) := by
  constructor
  · intro h1 h2 h3
    simp [ioc_details, h1, h2, h3]
  · intro hor
    cases hs : pyTruthy i.source_ip <;> cases hd2 : pyTruthy i.dest_ip <;>
      cases hp : pyTruthy i.protocol
    · rw [hs, hd2, hp] at hor
      simp at hor
    all_goals simp [ioc_details, hs, hd2, hp, String.join, append_line_ne_empty,
      line_ne_empty]

/-- Witness for C7: only `protocol` populated gives exactly the protocol
line; nothing populated gives the no-indicator line. -/
theorem indicator_listing_lines_witness :
    ioc_details ⟨none, none, some "TCP"⟩ = "- Protocol: TCP\n"
    ∧ ioc_details ⟨none, none, none⟩ = noIocsLine := by
  constructor
  · have h := (indicator_listing_lines ⟨none, none, some "TCP"⟩).2 (by decide)
    exact h.trans (by decide)
  · exact (indicator_listing_lines ⟨none, none, none⟩).1 rfl rfl rfl

/-- Claim C8: the Document Builder substitutes the documented defaults
for missing optional fields and never raises: a missing name becomes the
placeholder `Unnamed Test`, missing or empty platforms render as
`unknown` while present platforms render comma-joined, a missing
executor yields executor name `unknown` and an empty command, and the
whitespace-trimmed (possibly empty) description is embedded in the
content. -/
theorem document_builder_defaults
    (technique_id technique_name file_path : String) (test : AtomicTest) :
    (test.name = none →
       getMeta (buildDocument technique_id technique_name file_path test) "test_name"
         = some "Unnamed Test")
    ∧ ((test.supported_platforms = none ∨ test.supported_platforms = some []) →
       getMeta (buildDocument technique_id technique_name file_path test) "platform"
         = some "unknown")
    ∧ (∀ ps, test.supported_platforms = some ps → ps ≠ [] →
       getMeta (buildDocument technique_id technique_name file_path test) "platform"
         = some (String.intercalate ", " ps))
    ∧ (test.executor = none →
       getMeta (buildDocument technique_id technique_name file_path test) "executor"
           = some "unknown"
       ∧ getMeta (buildDocument technique_id technique_name file_path test) "command"
           = some "")
    ∧ ∃ pre post,
        (buildDocument technique_id technique_name file_path test).page_content
          = pre ++ pyStrip (test.description.getD "") ++ post := by
  have hname : getMeta (buildDocument technique_id technique_name file_path test) "test_name"
      = some (test.name.getD "Unnamed Test") := rfl
  have hplat : getMeta (buildDocument technique_id technique_name file_path test) "platform"
      = some (if (test.supported_platforms.getD []) = [] then "unknown"
              else String.intercalate ", " (test.supported_platforms.getD [])) := rfl
  have hexec : getMeta (buildDocument technique_id technique_name file_path test) "executor"
      = some ((test.executor.getD {}).name.getD "unknown") := rfl
  have hcmd : getMeta (buildDocument technique_id technique_name file_path test) "command"
      = some (pyTake ((test.executor.getD {}).command.getD "") 1000) := rfl
  refine ⟨?_, ?_, ?_, ?_, ?_⟩
  · intro h
    simp [hname, h]
  · intro h
    rcases h with h | h <;> simp [hplat, h]
  · intro ps hps hne
    simp [hplat, hps, hne]
  · intro h
    constructor
    · simp [hexec, h]
    · simp [hcmd, h, pyTake]
  · refine ⟨"\n                        Technique: " ++ technique_id ++ ": " ++ technique_name
      ++ "\n                        Test Name: " ++ (test.name.getD "Unnamed Test")
      ++ "\n                        Platform: "
      ++ (if (test.supported_platforms.getD []) = [] then "unknown"
          else String.intercalate ", " (test.supported_platforms.getD []))
      ++ "\n                        Description: ",
      "\n                        Command: " ++ ((test.executor.getD {}).command.getD "")
      ++ "\n                        ", ?_⟩
    simp [buildDocument, String.append_assoc]

/-- Witness for C8: an atomic test with every optional field absent, and
one with two platforms. -/
theorem document_builder_defaults_witness :
    getMeta (buildDocument "T1059" "Command and Scripting Interpreter" "T1059.yaml" {})
        "test_name" = some "Unnamed Test"
    ∧ getMeta (buildDocument "T1059" "Command and Scripting Interpreter" "T1059.yaml" {})
        "platform" = some "unknown"
    ∧ getMeta (buildDocument "T1059" "Command and Scripting Interpreter" "T1059.yaml"
          { supported_platforms := some ["Windows", "Linux"] }) "platform"
        = some "Windows, Linux"
    ∧ getMeta (buildDocument "T1059" "Command and Scripting Interpreter" "T1059.yaml" {})
        "executor" = some "unknown"
    ∧ getMeta (buildDocument "T1059" "Command and Scripting Interpreter" "T1059.yaml" {})
        "command" = some "" := by
  have h0 := document_builder_defaults "T1059" "Command and Scripting Interpreter"
    "T1059.yaml" {}
  have h1 := document_builder_defaults "T1059" "Command and Scripting Interpreter"
    "T1059.yaml" { supported_platforms := some ["Windows", "Linux"] }
  refine ⟨h0.1 rfl, h0.2.1 (Or.inl rfl), ?_, (h0.2.2.2.1 rfl).1, (h0.2.2.2.1 rfl).2⟩
  have h2 := h1.2.2.1 ["Windows", "Linux"] rfl (by decide)
  exact h2.trans (by decide)

/-- Claim C9: the interactive loop strips each entered line before any
pipeline stage: an all-whitespace line is silently skipped, and
otherwise the stripped string — not the raw input — is the original
alert of the turn; in particular, under the decode-failure fallback the
enhanced query is exactly the stripped string. -/
theorem interactive_loop_strips_input (sim : String → Document → Nat)
    (idx : Index) (response : Option JValue) (raw : String) :
    (pyStrip raw = "" → loopStep sim idx response raw = StepResult.skip)
    ∧ (pyLower (pyStrip raw) ∉ exitWords → pyStrip raw ≠ "" →
        loopStep sim idx response raw
          = StepResult.turn (pyStrip raw) (runTurn sim idx response (pyStrip raw)))
    ∧ (pyLower (pyStrip raw) ∉ exitWords → pyStrip raw ≠ "" →
        response = none →
        loopStep sim idx response raw
          = StepResult.turn (pyStrip raw)
              (Except.ok ⟨pyStrip raw, JValue.obj [], retrieve sim idx (pyStrip raw)⟩)) := by
  have hc : pyLower "" ∉ exitWords := by decide
  refine ⟨?_, ?_, ?_⟩
  · intro h
    simp [loopStep, h, hc]
  · intro hex hne
    simp [loopStep, hex, hne]
  · intro hex hne hresp
    simp [loopStep, hex, hne, hresp, runTurn, parseRewrite]

/-- Witness for C9: a whitespace-only line skips; a padded alert is
stripped before rewriting, falling back to the stripped text as the
enhanced query. -/
theorem interactive_loop_strips_input_witness :
    loopStep simW idxW none "   " = StepResult.skip
    ∧ loopStep simW idxW none "  ET SCAN SSH  "
        = StepResult.turn "ET SCAN SSH"
            (Except.ok ⟨"ET SCAN SSH", JValue.obj [], retrieve simW idxW "ET SCAN SSH"⟩) := by
  constructor
  · exact (interactive_loop_strips_input simW idxW none "   ").1 (by decide)
  · have h := (interactive_loop_strips_input simW idxW none "  ET SCAN SSH  ").2.2
      (by decide) (by decide) rfl
    rw [show pyStrip "  ET SCAN SSH  " = "ET SCAN SSH" from by decide] at h
    exact h

/-- Claim C10: a definition file with a tests collection is never
skipped — it reports no error and yields one Document per test — and
whenever the technique-identifier or the technique-name field is
missing, every built Document carries the literal `Unknown` as
`technique_id` and/or `technique_name` respectively, in metadata and
inside the content text. -/
theorem unknown_technique_fields (file_path : String) (data : TechniqueFile)
    (tests : List AtomicTest) (h1 : data.atomic_tests = some tests) :
    (processFile file_path (FileParse.parsed (some data))).2 = none
    ∧ (processFile file_path (FileParse.parsed (some data))).1.length = tests.length
    ∧ (data.attack_technique = none →
        ∀ d ∈ (processFile file_path (FileParse.parsed (some data))).1,
          getMeta d "technique_id" = some "Unknown"
          ∧ ∃ pre post, d.page_content = pre ++ "Unknown" ++ post)
    ∧ (data.display_name = none →
        ∀ d ∈ (processFile file_path (FileParse.parsed (some data))).1,
          getMeta d "technique_name" = some "Unknown"
          ∧ ∃ pre post, d.page_content = pre ++ "Unknown" ++ post) := by
  have hproc : processFile file_path (FileParse.parsed (some data))
      = (tests.map (buildDocument (data.attack_technique.getD "Unknown")
          (data.display_name.getD "Unknown") file_path), none) := by
    simp [processFile, h1]
  have hb1 : ∀ (a b : String) (t : AtomicTest),
      getMeta (buildDocument a b file_path t) "technique_id" = some a :=
    fun a b t => rfl
  have hb2 : ∀ (a b : String) (t : AtomicTest),
      getMeta (buildDocument a b file_path t) "technique_name" = some b :=
    fun a b t => rfl
  refine ⟨by rw [hproc], by rw [hproc]; simp, ?_, ?_⟩
  · intro h2 d hd
    rw [hproc] at hd
    simp only [List.mem_map] at hd
    obtain ⟨t, ht, rfl⟩ := hd
    refine ⟨by rw [hb1, h2, Option.getD_none], ?_⟩
    refine ⟨"\n                        Technique: ",
      ": " ++ (data.display_name.getD "Unknown")
        ++ "\n                        Test Name: " ++ (t.name.getD "Unnamed Test")
        ++ "\n                        Platform: "
        ++ (if (t.supported_platforms.getD []) = [] then "unknown"
            else String.intercalate ", " (t.supported_platforms.getD []))
        ++ "\n                        Description: " ++ pyStrip (t.description.getD "")
        ++ "\n                        Command: " ++ ((t.executor.getD {}).command.getD "")
        ++ "\n                        ", ?_⟩
    rw [h2]
    simp only [buildDocument, Option.getD_none, String.append_assoc]
  · intro h3 d hd
    rw [hproc] at hd
    simp only [List.mem_map] at hd
    obtain ⟨t, ht, rfl⟩ := hd
    refine ⟨by rw [hb2, h3, Option.getD_none], ?_⟩
    refine ⟨"\n                        Technique: "
        ++ (data.attack_technique.getD "Unknown") ++ ": ",
      "\n                        Test Name: " ++ (t.name.getD "Unnamed Test")
        ++ "\n                        Platform: "
        ++ (if (t.supported_platforms.getD []) = [] then "unknown"
            else String.intercalate ", " (t.supported_platforms.getD []))
        ++ "\n                        Description: " ++ pyStrip (t.description.getD "")
        ++ "\n                        Command: " ++ ((t.executor.getD {}).command.getD "")
        ++ "\n                        ", ?_⟩
    rw [h3]
    simp only [buildDocument, Option.getD_none, String.append_assoc]

/-- A concrete definition file with one atomic test and neither
`attack_technique` nor `display_name`. -/
def dataW : TechniqueFile := { atomic_tests := some [{}] }

/-- Witness for C10: the concrete file yields one document and no error
report, and its document carries `Unknown` for both missing fields. -/
theorem unknown_technique_fields_witness :
    (processFile "T0000.yaml" (FileParse.parsed (some dataW))).2 = none
    ∧ (processFile "T0000.yaml" (FileParse.parsed (some dataW))).1.length = 1
    ∧ getMeta (buildDocument "Unknown" "Unknown" "T0000.yaml" {}) "technique_id"
        = some "Unknown"
    ∧ getMeta (buildDocument "Unknown" "Unknown" "T0000.yaml" {}) "technique_name"
        = some "Unknown" := by
  have h := unknown_technique_fields "T0000.yaml" dataW [{}] rfl
  have hlist : (processFile "T0000.yaml" (FileParse.parsed (some dataW))).1
      = [buildDocument "Unknown" "Unknown" "T0000.yaml" {}] := rfl
  have hmem : buildDocument "Unknown" "Unknown" "T0000.yaml" {}
      ∈ (processFile "T0000.yaml" (FileParse.parsed (some dataW))).1 := by
    rw [hlist]
    exact List.mem_singleton_self _
  exact ⟨h.1, h.2.1, (h.2.2.1 rfl _ hmem).1, (h.2.2.2 rfl _ hmem).1⟩

end CyberRAG
